import Mathlib

/-!
Verification of `src/nvidia/src/kernel/gpu/bif/arch/ada/kernel_bif_ad102.c`
(open-gpu-kernel-modules): the pre-OS eRoT grant handshake
(`kbifPreOsGlobalErotGrantRequest_AD102`, `_kbifPreOsCheckErotGrantAllowed_AD102`)
and the XVE register-map initialization (`kbifInitXveRegMap_AD102`).

Hardware register reads are modelled by an oracle stream: `GpuState.reads k`
is the 32-bit value returned by the k-th read of the grant-status register
over the device's life, and `GpuState.readCount` counts reads performed so
far.  Writes to the register are logged in order in `GpuState.writes`.
-/

/-- Return statuses used by this translation unit.  `other` stands for any
further `NV_STATUS` code an external callee might return. -/
inductive NvStatus where
  | NV_OK
  | NV_ERR_TIMEOUT
  | NV_ERR_NO_MEMORY
  | NV_ERR_INVALID_ARGUMENT
  | other (code : Nat)
deriving DecidableEq, Repr

/-- A register bit-field given by its low and high bit positions, as in the
`hi:lo` field definitions of the hardware headers. -/
structure FieldDescriptor where
  lo : Nat
  hi : Nat
deriving DecidableEq, Repr

/-- Modelled from the spec: the `DRF_SHIFT` macro of `nvmisc.h` (not under
src/); the spec's RegisterFieldCodec decodes fields by mask and shift. -/
def DRF_SHIFT (d : FieldDescriptor) : Nat := d.lo % 32

/-- Modelled from the spec: the `DRF_MASK` macro of `nvmisc.h` (not under
src/). -/
def DRF_MASK (d : FieldDescriptor) : Nat :=
  0xFFFFFFFF >>> (31 - d.hi % 32 + d.lo % 32)

/-- Modelled from the spec: the `DRF_SHIFTMASK` macro of `nvmisc.h` (not
under src/). -/
def DRF_SHIFTMASK (d : FieldDescriptor) : Nat := DRF_MASK d <<< DRF_SHIFT d

/-- Modelled from the spec: the `DRF_VAL` macro of `nvmisc.h` (not under
src/): extract a field's encoded value from a register value. -/
def DRF_VAL (d : FieldDescriptor) (v : Nat) : Nat :=
  (v >>> DRF_SHIFT d) &&& DRF_MASK d

/-- Modelled from the spec: the `DRF_DEF` macro of `nvmisc.h` (not under
src/): a named encoded value shifted into field position. -/
def DRF_DEF (d : FieldDescriptor) (c : Nat) : Nat := c <<< DRF_SHIFT d

/-- Modelled from the spec: the `FLD_TEST_DRF` macro of `nvmisc.h` (not under
src/): test whether a register value's field decodes to the given encoding. -/
def FLD_TEST_DRF (d : FieldDescriptor) (c : Nat) (v : Nat) : Bool :=
  DRF_VAL d v == c

/-- Modelled from the spec: the `FLD_SET_DRF` macro of `nvmisc.h` (not under
src/): overwrite a field of a 32-bit register value with the given encoding,
leaving the other bits untouched. -/
def FLD_SET_DRF (d : FieldDescriptor) (c : Nat) (v : Nat) : Nat :=
  (v &&& (0xFFFFFFFF ^^^ DRF_SHIFTMASK d)) ||| DRF_DEF d c

/-- Modelled from the spec: the bit positions of the VALID field of
`NV_PBUS_SW_GLOBAL_EROT_GRANT` come from `dev_bus_addendum.h`, which is not
under src/; the spec treats the field layout as opaque configuration, so a
representative single-bit field is used. -/
def NV_PBUS_SW_GLOBAL_EROT_GRANT_VALID : FieldDescriptor := ⟨0, 0⟩

/-- Modelled from the spec: the `_NO` encoding of the VALID field
(`dev_bus_addendum.h`, not under src/). -/
def NV_PBUS_SW_GLOBAL_EROT_GRANT_VALID_NO : Nat := 0

/-- Modelled from the spec: the REQUEST field of
`NV_PBUS_SW_GLOBAL_EROT_GRANT` (`dev_bus_addendum.h`, not under src/);
representative single-bit field disjoint from VALID and ALLOW. -/
def NV_PBUS_SW_GLOBAL_EROT_GRANT_REQUEST : FieldDescriptor := ⟨1, 1⟩

/-- Modelled from the spec: the `_SET` encoding of the REQUEST field
(`dev_bus_addendum.h`, not under src/). -/
def NV_PBUS_SW_GLOBAL_EROT_GRANT_REQUEST_SET : Nat := 1

/-- Modelled from the spec: the ALLOW field of `NV_PBUS_SW_GLOBAL_EROT_GRANT`
(`dev_bus_addendum.h`, not under src/); representative single-bit field
disjoint from VALID and REQUEST. -/
def NV_PBUS_SW_GLOBAL_EROT_GRANT_ALLOW : FieldDescriptor := ⟨2, 2⟩

/-- Modelled from the spec: the `_YES` encoding of the ALLOW field
(`dev_bus_addendum.h`, not under src/). -/
def NV_PBUS_SW_GLOBAL_EROT_GRANT_ALLOW_YES : Nat := 1

/-- State of the GPU's grant-status register interface as seen by this
translation unit.  `reads k` is the 32-bit value the hardware returns on the
k-th read of `NV_PBUS_SW_GLOBAL_EROT_GRANT`; `readCount` is the number of
reads already performed; `writes` logs the values written to the register,
oldest first. -/
structure GpuState where
  reads : Nat → Nat
  readCount : Nat
  writes : List Nat

/-- Modelled from the spec: `GPU_REG_RD32` (register I/O collaborator, not
under src/) — read the grant-status register: returns the next oracle value
truncated to 32 bits and advances the read counter. -/
def GPU_REG_RD32 (st : GpuState) : Nat × GpuState :=
  (st.reads st.readCount % 2 ^ 32,
   { st with readCount := st.readCount + 1 })

/-- Modelled from the spec: `GPU_REG_WR32` (register I/O collaborator, not
under src/) — write the grant-status register: appends the value to the
write log. -/
def GPU_REG_WR32 (v : Nat) (st : GpuState) : GpuState :=
  { st with writes := st.writes ++ [v] }

/-- `_kbifPreOsCheckErotGrantAllowed_AD102` (kernel_bif_ad102.c:136): perform
a fresh read of `NV_PBUS_SW_GLOBAL_EROT_GRANT` and test whether the ALLOW
field reads YES. -/
def kbifPreOsCheckErotGrantAllowed (st : GpuState) : Bool × GpuState :=
  let p := GPU_REG_RD32 st
  (FLD_TEST_DRF NV_PBUS_SW_GLOBAL_EROT_GRANT_ALLOW
     NV_PBUS_SW_GLOBAL_EROT_GRANT_ALLOW_YES p.1, p.2)

/-- Modelled from the spec: `gpuTimeoutCondWait` (gpu_timeout machinery, not
under src/) is the spec's BoundedPoll: invoke the predicate at least once
before checking the deadline; return Success as soon as the predicate holds,
Timeout once the budget (here `fuel` further attempts after the first check)
is exhausted. -/
def gpuTimeoutCondWait : Nat → (GpuState → Bool × GpuState) → GpuState →
    NvStatus × GpuState
  | fuel, cond, st =>
    let p := cond st
    if p.1 then (NvStatus.NV_OK, p.2)
    else
      match fuel with
      | 0 => (NvStatus.NV_ERR_TIMEOUT, p.2)
      | n + 1 => gpuTimeoutCondWait n cond p.2

/-- `kbifPreOsGlobalErotGrantRequest_AD102` (kernel_bif_ad102.c:48): read the
grant-status register; if VALID reads NO return OK; if a fresh read's ALLOW
field reads YES return OK; otherwise set REQUEST to SET in the first read's
value, write it back, and poll until ALLOW reads YES or the budget runs out.
`fuel` is the poll budget supplied by the timeout machinery. -/
def kbifPreOsGlobalErotGrantRequest (fuel : Nat) (st : GpuState) :
    NvStatus × GpuState :=
  let p := GPU_REG_RD32 st
  let reg := p.1
  if FLD_TEST_DRF NV_PBUS_SW_GLOBAL_EROT_GRANT_VALID
       NV_PBUS_SW_GLOBAL_EROT_GRANT_VALID_NO reg then
    (NvStatus.NV_OK, p.2)
  else
    let q := kbifPreOsCheckErotGrantAllowed p.2
    if q.1 then
      (NvStatus.NV_OK, q.2)
    else
      let reg2 := FLD_SET_DRF NV_PBUS_SW_GLOBAL_EROT_GRANT_REQUEST
        NV_PBUS_SW_GLOBAL_EROT_GRANT_REQUEST_SET reg
      let st2 := GPU_REG_WR32 reg2 q.2
      gpuTimeoutCondWait fuel kbifPreOsCheckErotGrantAllowed st2

/-- Modelled from the spec: the contents of the static table
`NV_PCFG_XVE_REGISTER_VALID_MAP` come from `dev_nv_pcfg_xve_regmap.h`, which
is not under src/; the spec treats the mask tables as opaque data supplied
by configuration.  Representative concrete table. -/
def xveRegMapValid : List Nat := [0xFFFFFFFF, 0x0000FFFF, 0xFF00FF00]

/-- Modelled from the spec: the contents of the static table
`NV_PCFG_XVE_REGISTER_WR_MAP` (`dev_nv_pcfg_xve_regmap.h`, not under src/);
representative concrete table. -/
def xveRegMapWrite : List Nat := [0x00FF00FF, 0xF0F0F0F0]

/-- One entry of `KernelBif::xveRegmapRef`: the per-PCI-function register-map
reference.  C pointers are modelled as `Option Nat` handles (`none` = NULL);
the mask-table pointers are modelled by the tables they point to. -/
structure XveRegmapRef where
  nFunc : Nat
  xveRegMapValid : List Nat
  xveRegMapWrite : List Nat
  numXveRegMapValid : Nat
  numXveRegMapWrite : Nat
  bufBootConfigSpace : Option Nat
  bufMsixTable : Option Nat
deriving DecidableEq, Repr

/-- The slice of the `KernelBif` object this translation unit touches: the
register-map references for PCI functions 0 and 1, and the handle of the
per-device boot-config cache `cacheData.gpuBootConfigSpace`. -/
structure KernelBif where
  xveRegmapRef0 : XveRegmapRef
  xveRegmapRef1 : XveRegmapRef
  cacheDataGpuBootConfigSpace : Nat
deriving DecidableEq, Repr

/-- Result of `kbifInitXveRegMap_AD102`: the returned status, the resulting
`KernelBif` state, and whether a debug assertion (`NV_ASSERT` /
`NV_ASSERT_OR_RETURN`) tripped during the call. -/
structure InitResult where
  status : NvStatus
  kbif : KernelBif
  assertTripped : Bool
deriving DecidableEq, Repr

/-- `kbifInitXveRegMap_AD102` (kernel_bif_ad102.c:95).  External collaborators
are passed as parameters: `gm107` is `kbifInitXveRegMap_GM107` (an older HAL
implementation living outside this file), `msixVectorControlSize` is the
value returned by `kbifGetMSIXTableVectorControlSize_HAL`, and
`portMemAllocNonPaged` is the allocator (size in bytes to maybe a handle;
`sizeof(NvU32)` = 4). -/
def kbifInitXveRegMap (gm107 : Nat → KernelBif → NvStatus × KernelBif)
    (msixVectorControlSize : Nat)
    (portMemAllocNonPaged : Nat → Option Nat)
    (pKernelBif : KernelBif) (func : Nat) : InitResult :=
  if func == 0 then
    let ref := { pKernelBif.xveRegmapRef0 with
      nFunc := 0,
      xveRegMapValid := xveRegMapValid,
      xveRegMapWrite := xveRegMapWrite,
      numXveRegMapValid := xveRegMapValid.length,
      numXveRegMapWrite := xveRegMapWrite.length,
      bufBootConfigSpace := some pKernelBif.cacheDataGpuBootConfigSpace }
    let controlSize := msixVectorControlSize
    let ref2 :=
      if ref.bufMsixTable == none then
        { ref with bufMsixTable := portMemAllocNonPaged (controlSize * 4 * 4) }
      else ref
    let bif2 := { pKernelBif with xveRegmapRef0 := ref2 }
    if ref2.bufMsixTable == none then
      { status := NvStatus.NV_ERR_NO_MEMORY, kbif := bif2, assertTripped := true }
    else
      { status := NvStatus.NV_OK, kbif := bif2, assertTripped := false }
  else if func == 1 then
    let p := gm107 1 pKernelBif
    { status := p.1, kbif := p.2, assertTripped := false }
  else
    { status := NvStatus.NV_ERR_INVALID_ARGUMENT, kbif := pKernelBif,
      assertTripped := true }

/-! ### Helper lemmas about the bounded poll -/

/-- The bounded poll only ever reports success or timeout. -/
theorem gpuTimeoutCondWait_isOkOrTimeout (fuel : Nat)
    (cond : GpuState → Bool × GpuState) (st : GpuState) :
    (gpuTimeoutCondWait fuel cond st).1 = NvStatus.NV_OK ∨
    (gpuTimeoutCondWait fuel cond st).1 = NvStatus.NV_ERR_TIMEOUT := by
  induction fuel generalizing st with
  | zero =>
    rw [gpuTimeoutCondWait]
    by_cases h : (cond st).1 <;> simp [h]
  | succ n ih =>
    rw [gpuTimeoutCondWait]
    by_cases h : (cond st).1
    · simp [h]
    · simpa [h] using ih (cond st).2

/-- Unfolding lemma: the grant-allowed predicate reads the register once and
tests the ALLOW field. -/
theorem kbifPreOsCheckErotGrantAllowed_eq (s : GpuState) :
    kbifPreOsCheckErotGrantAllowed s =
      (FLD_TEST_DRF NV_PBUS_SW_GLOBAL_EROT_GRANT_ALLOW
         NV_PBUS_SW_GLOBAL_EROT_GRANT_ALLOW_YES (s.reads s.readCount % 2 ^ 32),
       { s with readCount := s.readCount + 1 }) := rfl

/-! ### C2 -/

/-- C2: if the first read of the grant-status register has the VALID field
reading NO (no eRoT controller present), `kbifPreOsGlobalErotGrantRequest`
returns NV_OK immediately, having performed exactly that one read and no
register write at all: absence of a controller is folded into success. -/
theorem erotGrantRequest_no_erot_returns_ok_no_write (fuel : Nat)
    (st : GpuState)
    (h : FLD_TEST_DRF NV_PBUS_SW_GLOBAL_EROT_GRANT_VALID
        NV_PBUS_SW_GLOBAL_EROT_GRANT_VALID_NO
        (st.reads st.readCount % 2 ^ 32) = true) :
    kbifPreOsGlobalErotGrantRequest fuel st =
      (NvStatus.NV_OK, { st with readCount := st.readCount + 1 }) ∧
    (kbifPreOsGlobalErotGrantRequest fuel st).2.writes = st.writes := by
  have he : kbifPreOsGlobalErotGrantRequest fuel st =
      (NvStatus.NV_OK, { st with readCount := st.readCount + 1 }) := by
    unfold kbifPreOsGlobalErotGrantRequest GPU_REG_RD32
    norm_num at h
    simp [h]
  exact ⟨he, by rw [he]⟩

/-- Oracle stream for the C2 witness: every read returns 0, whose VALID bit
is clear (VALID reads NO). -/
def stValidNo : GpuState := { reads := fun _ => 0, readCount := 0, writes := [] }

/-- Witness for C2 at a concrete state: the VALID field of the first read is
NO and the call returns NV_OK after a single read with no write. -/
theorem erotGrantRequest_no_erot_returns_ok_no_write_witness :
    kbifPreOsGlobalErotGrantRequest 5 stValidNo =
      (NvStatus.NV_OK, { stValidNo with readCount := 1 }) ∧
    (kbifPreOsGlobalErotGrantRequest 5 stValidNo).2.writes = stValidNo.writes :=
  erotGrantRequest_no_erot_returns_ok_no_write 5 stValidNo rfl

/-! ### C3 -/

/-- C3: if the first read's VALID field does not read NO and the fresh read
performed by the allowed-check has ALLOW reading YES, the call returns NV_OK
having performed exactly those two reads, writing nothing (in particular
never writing the REQUEST field) and never invoking the bounded poll: the
handshake is side-effect-free and successful on an already-granted state. -/
theorem erotGrantRequest_already_allowed_idempotent (fuel : Nat)
    (st : GpuState)
    (h1 : FLD_TEST_DRF NV_PBUS_SW_GLOBAL_EROT_GRANT_VALID
        NV_PBUS_SW_GLOBAL_EROT_GRANT_VALID_NO
        (st.reads st.readCount % 2 ^ 32) = false)
    (h2 : FLD_TEST_DRF NV_PBUS_SW_GLOBAL_EROT_GRANT_ALLOW
        NV_PBUS_SW_GLOBAL_EROT_GRANT_ALLOW_YES
        (st.reads (st.readCount + 1) % 2 ^ 32) = true) :
    kbifPreOsGlobalErotGrantRequest fuel st =
      (NvStatus.NV_OK, { st with readCount := st.readCount + 2 }) ∧
    (kbifPreOsGlobalErotGrantRequest fuel st).2.writes = st.writes := by
  have he : kbifPreOsGlobalErotGrantRequest fuel st =
      (NvStatus.NV_OK, { st with readCount := st.readCount + 2 }) := by
    unfold kbifPreOsGlobalErotGrantRequest kbifPreOsCheckErotGrantAllowed
      GPU_REG_RD32
    norm_num at h1 h2
    simp [h1, h2]
  exact ⟨he, by rw [he]⟩

/-- Oracle stream for the C3 witness: every read returns 5 = 0b101, so the
VALID bit is set (VALID does not read NO) and the ALLOW bit is set (ALLOW
reads YES). -/
def stAllowYes : GpuState := { reads := fun _ => 5, readCount := 0, writes := [] }

/-- Witness for C3 at a concrete already-granted state. -/
theorem erotGrantRequest_already_allowed_idempotent_witness :
    kbifPreOsGlobalErotGrantRequest 7 stAllowYes =
      (NvStatus.NV_OK, { stAllowYes with readCount := 2 }) ∧
    (kbifPreOsGlobalErotGrantRequest 7 stAllowYes).2.writes = stAllowYes.writes :=
  erotGrantRequest_already_allowed_idempotent 7 stAllowYes rfl rfl

/-! ### C10 -/

/-- C10: after the initial VALID test the function never rechecks VALID — the
allowed-check tests only the ALLOW field of its fresh read.  So whenever the
first read's VALID field does not read NO and the second read has ALLOW
reading YES, the call returns NV_OK with no write, even though the second
read's VALID field reads NO. -/
theorem erotGrantRequest_second_read_ignores_valid (fuel : Nat)
    (st : GpuState)
    (h1 : FLD_TEST_DRF NV_PBUS_SW_GLOBAL_EROT_GRANT_VALID
        NV_PBUS_SW_GLOBAL_EROT_GRANT_VALID_NO
        (st.reads st.readCount % 2 ^ 32) = false)
    (h2 : FLD_TEST_DRF NV_PBUS_SW_GLOBAL_EROT_GRANT_ALLOW
        NV_PBUS_SW_GLOBAL_EROT_GRANT_ALLOW_YES
        (st.reads (st.readCount + 1) % 2 ^ 32) = true)
    (h3 : FLD_TEST_DRF NV_PBUS_SW_GLOBAL_EROT_GRANT_VALID
        NV_PBUS_SW_GLOBAL_EROT_GRANT_VALID_NO
        (st.reads (st.readCount + 1) % 2 ^ 32) = true) :
    kbifPreOsGlobalErotGrantRequest fuel st =
      (NvStatus.NV_OK, { st with readCount := st.readCount + 2 }) ∧
    (kbifPreOsGlobalErotGrantRequest fuel st).2.writes = st.writes := by
  have he : kbifPreOsGlobalErotGrantRequest fuel st =
      (NvStatus.NV_OK, { st with readCount := st.readCount + 2 }) := by
    unfold kbifPreOsGlobalErotGrantRequest kbifPreOsCheckErotGrantAllowed
      GPU_REG_RD32
    norm_num at h1 h2
    simp [h1, h2]
  exact ⟨he, by rw [he]⟩

/-- Oracle stream for the C10 witness: the first read returns 1 (VALID set,
ALLOW clear is irrelevant here — VALID does not read NO), every later read
returns 4 = 0b100 (ALLOW reads YES while VALID reads NO). -/
def stValidDrops : GpuState :=
  { reads := fun k => if k = 0 then 1 else 4, readCount := 0, writes := [] }

/-- Witness for C10 at a concrete state whose second read has ALLOW = YES but
VALID = NO. -/
theorem erotGrantRequest_second_read_ignores_valid_witness :
    kbifPreOsGlobalErotGrantRequest 7 stValidDrops =
      (NvStatus.NV_OK, { stValidDrops with readCount := 2 }) ∧
    (kbifPreOsGlobalErotGrantRequest 7 stValidDrops).2.writes =
      stValidDrops.writes :=
  erotGrantRequest_second_read_ignores_valid 7 stValidDrops rfl rfl rfl

/-! ### C1 -/

/-- C1: if the first read's VALID field does not read NO and the fresh read
performed by the allowed-check does not have ALLOW reading YES, the function
sets REQUEST to SET in the value of the first read, writes that value back to
the register (the only write), and hands the resulting state to the bounded
poll with the predicate that re-reads the register and tests ALLOW for YES;
the call returns exactly the poll's outcome, which is NV_OK on success and
NV_ERR_TIMEOUT on timeout. -/
theorem erotGrantRequest_pending_requests_then_polls (fuel : Nat)
    (st : GpuState)
    (h1 : FLD_TEST_DRF NV_PBUS_SW_GLOBAL_EROT_GRANT_VALID
        NV_PBUS_SW_GLOBAL_EROT_GRANT_VALID_NO
        (st.reads st.readCount % 2 ^ 32) = false)
    (h2 : FLD_TEST_DRF NV_PBUS_SW_GLOBAL_EROT_GRANT_ALLOW
        NV_PBUS_SW_GLOBAL_EROT_GRANT_ALLOW_YES
        (st.reads (st.readCount + 1) % 2 ^ 32) = false) :
    kbifPreOsGlobalErotGrantRequest fuel st =
      gpuTimeoutCondWait fuel kbifPreOsCheckErotGrantAllowed
        { st with
          readCount := st.readCount + 2,
          writes := st.writes ++
            [FLD_SET_DRF NV_PBUS_SW_GLOBAL_EROT_GRANT_REQUEST
               NV_PBUS_SW_GLOBAL_EROT_GRANT_REQUEST_SET
               (st.reads st.readCount % 2 ^ 32)] } ∧
    ((kbifPreOsGlobalErotGrantRequest fuel st).1 = NvStatus.NV_OK ∨
     (kbifPreOsGlobalErotGrantRequest fuel st).1 = NvStatus.NV_ERR_TIMEOUT) ∧
    (∀ s : GpuState, kbifPreOsCheckErotGrantAllowed s =
      (FLD_TEST_DRF NV_PBUS_SW_GLOBAL_EROT_GRANT_ALLOW
         NV_PBUS_SW_GLOBAL_EROT_GRANT_ALLOW_YES (s.reads s.readCount % 2 ^ 32),
       { s with readCount := s.readCount + 1 })) := by
  have he : kbifPreOsGlobalErotGrantRequest fuel st =
      gpuTimeoutCondWait fuel kbifPreOsCheckErotGrantAllowed
        { st with
          readCount := st.readCount + 2,
          writes := st.writes ++
            [FLD_SET_DRF NV_PBUS_SW_GLOBAL_EROT_GRANT_REQUEST
               NV_PBUS_SW_GLOBAL_EROT_GRANT_REQUEST_SET
               (st.reads st.readCount % 2 ^ 32)] } := by
    unfold kbifPreOsGlobalErotGrantRequest kbifPreOsCheckErotGrantAllowed
      GPU_REG_RD32 GPU_REG_WR32
    norm_num at h1 h2
    simp [h1, h2]
  refine ⟨he, ?_, fun s => kbifPreOsCheckErotGrantAllowed_eq s⟩
  rw [he]
  exact gpuTimeoutCondWait_isOkOrTimeout fuel kbifPreOsCheckErotGrantAllowed _

/-- Oracle stream for the C1 witness: the first two reads return 1 (VALID set,
ALLOW clear), later reads return 5 = 0b101 (ALLOW set), so the poll
succeeds. -/
def stPending : GpuState :=
  { reads := fun k => if k < 2 then 1 else 5, readCount := 0, writes := [] }

/-- Witness for C1 at a concrete state: the request is written back and the
poll decides the outcome. -/
theorem erotGrantRequest_pending_requests_then_polls_witness :
    kbifPreOsGlobalErotGrantRequest 3 stPending =
      gpuTimeoutCondWait 3 kbifPreOsCheckErotGrantAllowed
        { stPending with
          readCount := 2,
          writes := stPending.writes ++
            [FLD_SET_DRF NV_PBUS_SW_GLOBAL_EROT_GRANT_REQUEST
               NV_PBUS_SW_GLOBAL_EROT_GRANT_REQUEST_SET
               (stPending.reads 0 % 2 ^ 32)] } ∧
    ((kbifPreOsGlobalErotGrantRequest 3 stPending).1 = NvStatus.NV_OK ∨
     (kbifPreOsGlobalErotGrantRequest 3 stPending).1 = NvStatus.NV_ERR_TIMEOUT) ∧
    (∀ s : GpuState, kbifPreOsCheckErotGrantAllowed s =
      (FLD_TEST_DRF NV_PBUS_SW_GLOBAL_EROT_GRANT_ALLOW
         NV_PBUS_SW_GLOBAL_EROT_GRANT_ALLOW_YES (s.reads s.readCount % 2 ^ 32),
       { s with readCount := s.readCount + 1 })) :=
  erotGrantRequest_pending_requests_then_polls 3 stPending rfl rfl

/-! ### C9 -/

/-- Helper: with an oracle that never shows ALLOW = YES, the bounded poll on
the grant-allowed predicate times out after performing exactly `fuel + 1`
reads. -/
theorem gpuTimeoutCondWait_erot_never_allows (fuel : Nat) (st : GpuState)
    (hallow : ∀ k, FLD_TEST_DRF NV_PBUS_SW_GLOBAL_EROT_GRANT_ALLOW
        NV_PBUS_SW_GLOBAL_EROT_GRANT_ALLOW_YES (st.reads k % 2 ^ 32) = false) :
    gpuTimeoutCondWait fuel kbifPreOsCheckErotGrantAllowed st =
      (NvStatus.NV_ERR_TIMEOUT,
       { st with readCount := st.readCount + (fuel + 1) }) := by
  induction fuel generalizing st with
  | zero =>
    rw [gpuTimeoutCondWait, kbifPreOsCheckErotGrantAllowed_eq]
    simp only [hallow st.readCount, Bool.false_eq_true, if_false]
  | succ n ih =>
    rw [gpuTimeoutCondWait, kbifPreOsCheckErotGrantAllowed_eq]
    simp only [hallow st.readCount, Bool.false_eq_true, if_false]
    rw [ih { st with readCount := st.readCount + 1 } (fun k => hallow k)]
    have harith : st.readCount + 1 + (n + 1) = st.readCount + (n + 1 + 1) := by
      omega
    simp only [harith]

/-- Helper: the bounded poll with a predicate that always reports false
returns NV_ERR_TIMEOUT after invoking the predicate exactly `fuel + 1`
times. -/
theorem gpuTimeoutCondWait_always_false (fuel : Nat)
    (cond : GpuState → Bool × GpuState) (st : GpuState)
    (hfalse : ∀ s, (cond s).1 = false) :
    gpuTimeoutCondWait fuel cond st =
      (NvStatus.NV_ERR_TIMEOUT, (fun s => (cond s).2)^[fuel + 1] st) := by
  induction fuel generalizing st with
  | zero =>
    rw [gpuTimeoutCondWait]
    simp [hfalse st]
  | succ n ih =>
    rw [gpuTimeoutCondWait]
    simp only [hfalse st, Bool.false_eq_true, if_false]
    rw [ih ((cond st).2)]
    simp [Function.iterate_succ_apply]

/-- C9: the bounded poll is a total function that terminates for every
predicate; with a predicate that always returns false it returns
NV_ERR_TIMEOUT after invoking the predicate exactly `fuel + 1` times (the
whole budget, i.e. not before the deadline).  Consequently, on an oracle
whose first read has VALID not reading NO and whose reads never show
ALLOW = YES, the grant-request handshake itself returns NV_ERR_TIMEOUT after
exactly `2 + (fuel + 1)` reads — it completes in bounded time even when the
controller never grants access. -/
theorem gpuTimeoutCondWait_always_false_times_out (fuel : Nat)
    (cond : GpuState → Bool × GpuState) (st : GpuState)
    (hfalse : ∀ s, (cond s).1 = false)
    (hv : FLD_TEST_DRF NV_PBUS_SW_GLOBAL_EROT_GRANT_VALID
        NV_PBUS_SW_GLOBAL_EROT_GRANT_VALID_NO
        (st.reads st.readCount % 2 ^ 32) = false)
    (hallow : ∀ k, FLD_TEST_DRF NV_PBUS_SW_GLOBAL_EROT_GRANT_ALLOW
        NV_PBUS_SW_GLOBAL_EROT_GRANT_ALLOW_YES (st.reads k % 2 ^ 32) = false) :
    gpuTimeoutCondWait fuel cond st =
      (NvStatus.NV_ERR_TIMEOUT, (fun s => (cond s).2)^[fuel + 1] st) ∧
    (kbifPreOsGlobalErotGrantRequest fuel st).1 = NvStatus.NV_ERR_TIMEOUT ∧
    (kbifPreOsGlobalErotGrantRequest fuel st).2.readCount =
      st.readCount + 2 + (fuel + 1) := by
  refine ⟨gpuTimeoutCondWait_always_false fuel cond st hfalse, ?_⟩
  have he := erotGrantRequest_pending_requests_then_polls fuel st hv
    (hallow (st.readCount + 1))
  have h2 := gpuTimeoutCondWait_erot_never_allows fuel
    { st with
      readCount := st.readCount + 2,
      writes := st.writes ++
        [FLD_SET_DRF NV_PBUS_SW_GLOBAL_EROT_GRANT_REQUEST
           NV_PBUS_SW_GLOBAL_EROT_GRANT_REQUEST_SET
           (st.reads st.readCount % 2 ^ 32)] }
    (fun k => hallow k)
  rw [he.1, h2]
  exact ⟨rfl, rfl⟩

/-- Oracle stream for the C9 witness: every read returns 1 (VALID set, ALLOW
clear), so the controller never grants access. -/
def stNeverAllow : GpuState :=
  { reads := fun _ => 1, readCount := 0, writes := [] }

/-- Always-false predicate used by the C9 witness. -/
def condFalse : GpuState → Bool × GpuState := fun s => (false, s)

/-- Witness for C9 at a concrete never-granting state and an always-false
predicate with budget 2. -/
theorem gpuTimeoutCondWait_always_false_times_out_witness :
    gpuTimeoutCondWait 2 condFalse stNeverAllow =
      (NvStatus.NV_ERR_TIMEOUT, (fun s => (condFalse s).2)^[2 + 1] stNeverAllow) ∧
    (kbifPreOsGlobalErotGrantRequest 2 stNeverAllow).1 = NvStatus.NV_ERR_TIMEOUT ∧
    (kbifPreOsGlobalErotGrantRequest 2 stNeverAllow).2.readCount =
      stNeverAllow.readCount + 2 + (2 + 1) :=
  gpuTimeoutCondWait_always_false_times_out 2 condFalse stNeverAllow
    (fun _ => rfl) (by decide)
    (fun _ =>
      (by decide : FLD_TEST_DRF NV_PBUS_SW_GLOBAL_EROT_GRANT_ALLOW
        NV_PBUS_SW_GLOBAL_EROT_GRANT_ALLOW_YES (1 % 2 ^ 32) = false))

/-! ### C4 -/

/-- C4: with functionIndex 0, `kbifInitXveRegMap` populates the function-0
entry with the configuration-supplied valid/write mask tables and their
element counts, points the shadow boot-config buffer at the per-device
cache, allocates the MSIX buffer of `controlVectorCount * 4 * sizeof(NvU32)`
bytes only when not already allocated, and returns NV_ERR_NO_MEMORY exactly
when the buffer is null after that step, NV_OK otherwise. -/
theorem initXveRegMap_func0_populates_and_allocates
    (gm107 : Nat → KernelBif → NvStatus × KernelBif)
    (msixVectorControlSize : Nat) (portMemAllocNonPaged : Nat → Option Nat)
    (pKernelBif : KernelBif) :
    let r := kbifInitXveRegMap gm107 msixVectorControlSize
      portMemAllocNonPaged pKernelBif 0
    r.kbif.xveRegmapRef0.nFunc = 0 ∧
    r.kbif.xveRegmapRef0.xveRegMapValid = xveRegMapValid ∧
    r.kbif.xveRegmapRef0.xveRegMapWrite = xveRegMapWrite ∧
    r.kbif.xveRegmapRef0.numXveRegMapValid = xveRegMapValid.length ∧
    r.kbif.xveRegmapRef0.numXveRegMapWrite = xveRegMapWrite.length ∧
    r.kbif.xveRegmapRef0.bufBootConfigSpace =
      some pKernelBif.cacheDataGpuBootConfigSpace ∧
    (pKernelBif.xveRegmapRef0.bufMsixTable = none →
      r.kbif.xveRegmapRef0.bufMsixTable =
        portMemAllocNonPaged (msixVectorControlSize * 4 * 4)) ∧
    (pKernelBif.xveRegmapRef0.bufMsixTable ≠ none →
      r.kbif.xveRegmapRef0.bufMsixTable =
        pKernelBif.xveRegmapRef0.bufMsixTable) ∧
    (r.status = NvStatus.NV_ERR_NO_MEMORY ↔
      r.kbif.xveRegmapRef0.bufMsixTable = none) ∧
    (r.status = NvStatus.NV_OK ↔
      r.kbif.xveRegmapRef0.bufMsixTable ≠ none) := by
  dsimp only
  rcases hbuf : pKernelBif.xveRegmapRef0.bufMsixTable with _ | p
  · rcases halloc : portMemAllocNonPaged (msixVectorControlSize * 4 * 4)
      with _ | q
    · simp [kbifInitXveRegMap, hbuf, halloc]
    · simp [kbifInitXveRegMap, hbuf, halloc]
  · simp [kbifInitXveRegMap, hbuf]

/-- Stub for `kbifInitXveRegMap_GM107` used by concrete witnesses: returns
NV_OK and leaves the state unchanged. -/
def gm107Stub : Nat → KernelBif → NvStatus × KernelBif :=
  fun _ k => (NvStatus.NV_OK, k)

/-- A register-map entry with recognisable pre-call contents and a null MSIX
buffer, used by concrete witnesses. -/
def refEmpty : XveRegmapRef :=
  { nFunc := 7, xveRegMapValid := [], xveRegMapWrite := [],
    numXveRegMapValid := 0, numXveRegMapWrite := 0,
    bufBootConfigSpace := none, bufMsixTable := none }

/-- A `KernelBif` state with both entries in the recognisable pre-call state,
used by concrete witnesses. -/
def bifEmpty : KernelBif :=
  { xveRegmapRef0 := refEmpty, xveRegmapRef1 := refEmpty,
    cacheDataGpuBootConfigSpace := 99 }

/-- Allocator that always succeeds with handle 42, used by concrete
witnesses. -/
def allocOk : Nat → Option Nat := fun _ => some 42

/-- Allocator that always fails, used by concrete witnesses. -/
def allocFail : Nat → Option Nat := fun _ => none

/-- Witness for C4 at concrete inputs. -/
theorem initXveRegMap_func0_populates_and_allocates_witness :
    let r := kbifInitXveRegMap gm107Stub 2 allocOk bifEmpty 0
    r.kbif.xveRegmapRef0.nFunc = 0 ∧
    r.kbif.xveRegmapRef0.xveRegMapValid = xveRegMapValid ∧
    r.kbif.xveRegmapRef0.xveRegMapWrite = xveRegMapWrite ∧
    r.kbif.xveRegmapRef0.numXveRegMapValid = xveRegMapValid.length ∧
    r.kbif.xveRegmapRef0.numXveRegMapWrite = xveRegMapWrite.length ∧
    r.kbif.xveRegmapRef0.bufBootConfigSpace =
      some bifEmpty.cacheDataGpuBootConfigSpace ∧
    (bifEmpty.xveRegmapRef0.bufMsixTable = none →
      r.kbif.xveRegmapRef0.bufMsixTable = allocOk (2 * 4 * 4)) ∧
    (bifEmpty.xveRegmapRef0.bufMsixTable ≠ none →
      r.kbif.xveRegmapRef0.bufMsixTable =
        bifEmpty.xveRegmapRef0.bufMsixTable) ∧
    (r.status = NvStatus.NV_ERR_NO_MEMORY ↔
      r.kbif.xveRegmapRef0.bufMsixTable = none) ∧
    (r.status = NvStatus.NV_OK ↔
      r.kbif.xveRegmapRef0.bufMsixTable ≠ none) :=
  initXveRegMap_func0_populates_and_allocates gm107Stub 2 allocOk bifEmpty

/-! ### C5 -/

/-- Counterexample to C5 as stated: at a concrete pre-call state with a null
MSIX buffer and a failing allocator, `kbifInitXveRegMap` with functionIndex 0
returns NV_ERR_NO_MEMORY yet the function-0 register-map entry is NOT left
unchanged from its pre-call state — the mask-table, count and boot-config
fields have already been overwritten before the failed allocation is
detected. -/
theorem initXveRegMap_func0_alloc_failure_entry_changed :
    (kbifInitXveRegMap gm107Stub 2 allocFail bifEmpty 0).status =
      NvStatus.NV_ERR_NO_MEMORY ∧
    (kbifInitXveRegMap gm107Stub 2 allocFail bifEmpty 0).kbif.xveRegmapRef0 ≠
      bifEmpty.xveRegmapRef0 := by
  decide

/-- C5 amended: when `kbifInitXveRegMap` with functionIndex 0 fails because
the MSIX buffer allocation fails, it returns NV_ERR_NO_MEMORY (tripping the
debug assertion) with the MSIX buffer still null — no allocated buffer is
left referenced — while the function-0 entry's mask-table, count and
boot-config fields have already been populated exactly as on the success
path; the function-1 entry and the rest of the state are unchanged. -/
theorem initXveRegMap_func0_alloc_failure_behavior
    (gm107 : Nat → KernelBif → NvStatus × KernelBif)
    (msixVectorControlSize : Nat) (portMemAllocNonPaged : Nat → Option Nat)
    (pKernelBif : KernelBif)
    (hbuf : pKernelBif.xveRegmapRef0.bufMsixTable = none)
    (halloc : portMemAllocNonPaged (msixVectorControlSize * 4 * 4) = none) :
    kbifInitXveRegMap gm107 msixVectorControlSize portMemAllocNonPaged
      pKernelBif 0 =
      { status := NvStatus.NV_ERR_NO_MEMORY,
        kbif := { pKernelBif with xveRegmapRef0 :=
          { pKernelBif.xveRegmapRef0 with
            nFunc := 0,
            xveRegMapValid := xveRegMapValid,
            xveRegMapWrite := xveRegMapWrite,
            numXveRegMapValid := xveRegMapValid.length,
            numXveRegMapWrite := xveRegMapWrite.length,
            bufBootConfigSpace := some pKernelBif.cacheDataGpuBootConfigSpace,
            bufMsixTable := none } },
        assertTripped := true } ∧
    (kbifInitXveRegMap gm107 msixVectorControlSize portMemAllocNonPaged
      pKernelBif 0).kbif.xveRegmapRef1 = pKernelBif.xveRegmapRef1 ∧
    (kbifInitXveRegMap gm107 msixVectorControlSize portMemAllocNonPaged
      pKernelBif 0).kbif.xveRegmapRef0.bufMsixTable = none := by
  have he : kbifInitXveRegMap gm107 msixVectorControlSize portMemAllocNonPaged
      pKernelBif 0 =
      { status := NvStatus.NV_ERR_NO_MEMORY,
        kbif := { pKernelBif with xveRegmapRef0 :=
          { pKernelBif.xveRegmapRef0 with
            nFunc := 0,
            xveRegMapValid := xveRegMapValid,
            xveRegMapWrite := xveRegMapWrite,
            numXveRegMapValid := xveRegMapValid.length,
            numXveRegMapWrite := xveRegMapWrite.length,
            bufBootConfigSpace := some pKernelBif.cacheDataGpuBootConfigSpace,
            bufMsixTable := none } },
        assertTripped := true } := by
    simp [kbifInitXveRegMap, hbuf, halloc]
  exact ⟨he, by rw [he], by rw [he]⟩

/-- Witness for the amended C5 at concrete inputs. -/
theorem initXveRegMap_func0_alloc_failure_behavior_witness :
    kbifInitXveRegMap gm107Stub 2 allocFail bifEmpty 0 =
      { status := NvStatus.NV_ERR_NO_MEMORY,
        kbif := { bifEmpty with xveRegmapRef0 :=
          { bifEmpty.xveRegmapRef0 with
            nFunc := 0,
            xveRegMapValid := xveRegMapValid,
            xveRegMapWrite := xveRegMapWrite,
            numXveRegMapValid := xveRegMapValid.length,
            numXveRegMapWrite := xveRegMapWrite.length,
            bufBootConfigSpace := some bifEmpty.cacheDataGpuBootConfigSpace,
            bufMsixTable := none } },
        assertTripped := true } ∧
    (kbifInitXveRegMap gm107Stub 2 allocFail bifEmpty 0).kbif.xveRegmapRef1 =
      bifEmpty.xveRegmapRef1 ∧
    (kbifInitXveRegMap gm107Stub 2 allocFail
      bifEmpty 0).kbif.xveRegmapRef0.bufMsixTable = none :=
  initXveRegMap_func0_alloc_failure_behavior gm107Stub 2 allocFail bifEmpty
    rfl rfl

/-! ### C6 -/

/-- C6: for every functionIndex other than 0 and 1, `kbifInitXveRegMap`
returns NV_ERR_INVALID_ARGUMENT, trips the debug assertion, and leaves the
whole state — in particular both functions' register-map entries —
unchanged. -/
theorem initXveRegMap_invalid_func_rejected
    (gm107 : Nat → KernelBif → NvStatus × KernelBif)
    (msixVectorControlSize : Nat) (portMemAllocNonPaged : Nat → Option Nat)
    (pKernelBif : KernelBif) (func : Nat)
    (h0 : func ≠ 0) (h1 : func ≠ 1) :
    kbifInitXveRegMap gm107 msixVectorControlSize portMemAllocNonPaged
      pKernelBif func =
      { status := NvStatus.NV_ERR_INVALID_ARGUMENT, kbif := pKernelBif,
        assertTripped := true } ∧
    (kbifInitXveRegMap gm107 msixVectorControlSize portMemAllocNonPaged
      pKernelBif func).kbif.xveRegmapRef0 = pKernelBif.xveRegmapRef0 ∧
    (kbifInitXveRegMap gm107 msixVectorControlSize portMemAllocNonPaged
      pKernelBif func).kbif.xveRegmapRef1 = pKernelBif.xveRegmapRef1 := by
  have he : kbifInitXveRegMap gm107 msixVectorControlSize portMemAllocNonPaged
      pKernelBif func =
      { status := NvStatus.NV_ERR_INVALID_ARGUMENT, kbif := pKernelBif,
        assertTripped := true } := by
    simp [kbifInitXveRegMap, h0, h1]
  exact ⟨he, by rw [he], by rw [he]⟩

/-- Witness for C6 at functionIndex 2. -/
theorem initXveRegMap_invalid_func_rejected_witness :
    kbifInitXveRegMap gm107Stub 2 allocOk bifEmpty 2 =
      { status := NvStatus.NV_ERR_INVALID_ARGUMENT, kbif := bifEmpty,
        assertTripped := true } ∧
    (kbifInitXveRegMap gm107Stub 2 allocOk
      bifEmpty 2).kbif.xveRegmapRef0 = bifEmpty.xveRegmapRef0 ∧
    (kbifInitXveRegMap gm107Stub 2 allocOk
      bifEmpty 2).kbif.xveRegmapRef1 = bifEmpty.xveRegmapRef1 :=
  initXveRegMap_invalid_func_rejected gm107Stub 2 allocOk bifEmpty 2
    (by decide) (by decide)

/-! ### C7 -/

/-- C7: if the MSIX buffer is already non-null, a further call of
`kbifInitXveRegMap` with functionIndex 0 leaves the buffer handle identical
to what it was before — for every allocator, so the allocator is never
consulted for the buffer; the buffer is allocated at most once over the
device's life. -/
theorem initXveRegMap_func0_no_realloc
    (gm107 : Nat → KernelBif → NvStatus × KernelBif)
    (msixVectorControlSize : Nat) (portMemAllocNonPaged : Nat → Option Nat)
    (pKernelBif : KernelBif) (ptr : Nat)
    (hbuf : pKernelBif.xveRegmapRef0.bufMsixTable = some ptr) :
    (kbifInitXveRegMap gm107 msixVectorControlSize portMemAllocNonPaged
      pKernelBif 0).kbif.xveRegmapRef0.bufMsixTable = some ptr ∧
    (kbifInitXveRegMap gm107 msixVectorControlSize portMemAllocNonPaged
      pKernelBif 0).status = NvStatus.NV_OK := by
  constructor <;> simp [kbifInitXveRegMap, hbuf]

/-- Witness for C7: call `kbifInitXveRegMap` at function 0 twice, the second
time with an allocator that would hand out a different handle; the buffer
handle is still the one allocated by the first call. -/
theorem initXveRegMap_func0_no_realloc_witness :
    (kbifInitXveRegMap gm107Stub 3 (fun _ => some 1000)
      (kbifInitXveRegMap gm107Stub 2 allocOk bifEmpty 0).kbif
      0).kbif.xveRegmapRef0.bufMsixTable = some 42 ∧
    (kbifInitXveRegMap gm107Stub 3 (fun _ => some 1000)
      (kbifInitXveRegMap gm107Stub 2 allocOk bifEmpty 0).kbif
      0).status = NvStatus.NV_OK :=
  initXveRegMap_func0_no_realloc gm107Stub 3 (fun _ => some 1000)
    (kbifInitXveRegMap gm107Stub 2 allocOk bifEmpty 0).kbif 42 (by decide)

/-! ### C8 -/

/-- C8: with functionIndex 1, `kbifInitXveRegMap` delegates entirely to the
older GM107 implementation called with functionIndex 1, returning exactly
its status and its resulting state, performing no modification of its own
and tripping no assertion — for every GM107 implementation. -/
theorem initXveRegMap_func1_delegates_gm107
    (gm107 : Nat → KernelBif → NvStatus × KernelBif)
    (msixVectorControlSize : Nat) (portMemAllocNonPaged : Nat → Option Nat)
    (pKernelBif : KernelBif) :
    kbifInitXveRegMap gm107 msixVectorControlSize portMemAllocNonPaged
      pKernelBif 1 =
      { status := (gm107 1 pKernelBif).1, kbif := (gm107 1 pKernelBif).2,
        assertTripped := false } := by
  simp [kbifInitXveRegMap]

/-- Witness for C8 with a GM107 stub returning a distinctive status code and
a modified state: both are passed through unchanged. -/
theorem initXveRegMap_func1_delegates_gm107_witness :
    kbifInitXveRegMap
      (fun _ k => (NvStatus.other 1234,
        { k with cacheDataGpuBootConfigSpace := 7 }))
      2 allocOk bifEmpty 1 =
      { status := NvStatus.other 1234,
        kbif := { bifEmpty with cacheDataGpuBootConfigSpace := 7 },
        assertTripped := false } :=
  initXveRegMap_func1_delegates_gm107
    (fun _ k => (NvStatus.other 1234,
      { k with cacheDataGpuBootConfigSpace := 7 }))
    2 allocOk bifEmpty
